import Mathlib

/-!
Shallow embedding of `src/main.py` — a batch job that selects employees
whose probation ("test") period is ending, resolves manager emails, renders
an HTML report and mails it.

Modelling conventions:
* Dates are integer day numbers; SQL `DATEDIFF(DAY, a, b)` on dates is `b - a`
  and `DATEADD(DAY, n, d)` is `d + n`.  `getdate()` is passed explicitly as
  the `today` parameter.
* Database rows are records; NULLable columns are `Option`.
* A Python `try/except` around a fallible collaborator call is modelled by an
  outcome of type `Except Unit α` stored in the environment; a function whose
  code catches every exception returns a plain (total) value.
* Date formatting (`format(..., 'd', 'ro-ro')`) is out of scope for every
  claim; formatted date cells carry the underlying day number.
-/

namespace Main

/-- Row of `employee.dbo.employees` (the columns the query reads). -/
structure EmployeeRow where
  employeeId : Int
  employeeSurname : String
  employeeName : String
  employeeNID : String
deriving Repr, DecidableEq

/-- Row of `employee.dbo.employeehirehistory` (the columns the query reads). -/
structure HireRow where
  employeeHireHistoryId : Int
  employeeId : Int
  employeerId : Int
  hireDate : Int
  testPeriod : Int
deriving Repr, DecidableEq

/-- Row of `Employee.dbo.EmployeeEvaluationHistory`.  `IdValutazioneStorico`
is the evaluation-history identifier; as a row identifier it is never NULL,
so a joined evaluation row always fails the `is null` filter. -/
structure EvalRow where
  idValutazioneStorico : Int
  employeeHireHistoryId : Int
deriving Repr, DecidableEq

/-- The tables the eligibility query touches. -/
structure Database where
  employees : List EmployeeRow
  hires : List HireRow
  evals : List EvalRow
deriving Repr, DecidableEq

/-- One output row of the eligibility query, as the Python dict built in
`get_employees_with_upcoming_test_end`. -/
structure EligibilityRecord where
  employeehirehistoryid : Int
  employee : String
  hireDate : Int
  testPeriod : String
  lastTestDate : Int
  missingDayAtEndTestDate : Int
deriving Repr, DecidableEq

/-- The probation end date, `dateadd(DAY, [testPeriod], HireDate)`. -/
def probationEnd (h : HireRow) : Int :=
  h.hireDate + h.testPeriod

/-- The WHERE-clause date predicate:
`datediff(DAY, dateadd(DAY,[testPeriod],HireDate), getdate()) between -30 and 0`. -/
def dateWindow (today : Int) (h : HireRow) : Bool :=
  -30 ≤ today - probationEnd h && today - probationEnd h ≤ 0

/-- The SELECT list applied to a joined (employee, hire) pair. -/
def mkRecord (today : Int) (e : EmployeeRow) (h : HireRow) : EligibilityRecord :=
  { employeehirehistoryid := h.employeeHireHistoryId
    employee := e.employeeSurname ++ " " ++ e.employeeName ++ " [CNP: " ++ e.employeeNID ++ "]"
    hireDate := h.hireDate
    testPeriod := toString h.testPeriod ++ " days"
    lastTestDate := probationEnd h
    missingDayAtEndTestDate := |today - probationEnd h| }

/-- The join `employees e inner join employeehirehistory h on e.employeeid =
h.EmployeeId and h.EmployeerId = 2`. -/
def innerJoinHires (db : Database) : List (EmployeeRow × HireRow) :=
  db.employees.flatMap fun e =>
    (db.hires.filter fun h => h.employeeId == e.employeeId && h.employeerId == 2).map
      fun h => (e, h)

/-- The join `left join EmployeeEvaluationHistory ev on
ev.EmployeeHireHistoryId = h.EmployeeHireHistoryId`: one joined row per
matching evaluation row, or a single NULL-extended row when none matches. -/
def leftJoinEvals (evals : List EvalRow) (h : HireRow) : List (Option EvalRow) :=
  let ms := evals.filter fun ev => ev.employeeHireHistoryId == h.employeeHireHistoryId
  if ms.isEmpty then [none] else ms.map some

/-- The WHERE clause applied to one fully joined row: the date window and
`ev.IdValutazioneStorico is null`. -/
def whereClause (today : Int) (h : HireRow) (ev : Option EvalRow) : Bool :=
  dateWindow today h && ev.isNone

/-- Records emitted for one (employee, hire) pair after the left join and
the WHERE clause. -/
def emitFor (evals : List EvalRow) (today : Int) (e : EmployeeRow) (h : HireRow) :
    List EligibilityRecord :=
  (leftJoinEvals evals h).filterMap fun ev =>
    if whereClause today h ev then some (mkRecord today e h) else none

/-- The function `get_employees_with_upcoming_test_end`: the eligibility
query of `src/main.py` lines 23–35, evaluated over an in-memory database,
plus the row-to-dict loop of lines 42–52 (which copies the columns
unchanged). -/
def get_employees_with_upcoming_test_end (db : Database) (today : Int) :
    List EligibilityRecord :=
  (innerJoinHires db).flatMap fun p => emitFor db.evals today p.1 p.2

/-! ### Recipient resolver (`get_manager_emails`) -/

/-- Outcomes of the two fallible collaborator calls the resolver can make:
the `GetManager` stored procedure (keyed by the comma-joined id string it is
passed) and the settings read performed by `get_email_recipients` (keyed by
the settings key). `Except.error ()` models the call raising. -/
structure ResolverEnv where
  spOutcome : String → Except Unit (List (Option String))
  settingsOutcome : String → Except Unit (List String)

/-- The Python truthiness-plus-membership filter
`row[0] and '@' in row[0]` on one returned cell: the cell is non-NULL, the
string is non-empty, and '@' occurs among its characters. -/
def validEmailCell (r : Option String) : Bool :=
  match r with
  | none => false
  | some s => !s.isEmpty && s.data.contains '@'

/-- Line 81: `[row[0] for row in results if row[0] and '@' in row[0]]`. -/
def collectEmails (rows : List (Option String)) : List String :=
  rows.filterMap fun r => if validEmailCell r then r else none

/-- Line 69: `",".join([str(id) for id in employee_ids])`. -/
def idListString (ids : List Int) : String :=
  String.intercalate "," (ids.map toString)

/-- Modelled from the spec: the source of `get_email_recipients` lives in the
`utils` module, which is not under src/.  Per the spec it reads the default
recipient list stored under the given key in the application-settings table
(a fallible read, modelled by `settingsOutcome`) and the resolver's output
guarantee holds on every path, so each item it returns is a validated email
string (non-empty, contains a character '@'). -/
def get_email_recipients (env : ResolverEnv) (key : String) :
    Except Unit (List String) :=
  match env.settingsOutcome key with
  | .error e => .error e
  | .ok xs => .ok (xs.filter fun s => validEmailCell (some s))

/-- The body of the outer `try` of `get_manager_emails` (lines 68–83):
join the ids, execute the stored procedure, filter the returned cells. -/
def primaryAttempt (env : ResolverEnv) (ids : List Int) :
    Except Unit (List String) :=
  match env.spOutcome (idListString ids) with
  | .error e => .error e
  | .ok rows => .ok (collectEmails rows)

/-- What one run of the resolver did: its return value plus how many times
each collaborator path was entered. -/
structure ResolverRun where
  result : List String
  primaryCalls : Nat
  fallbackCalls : Nat
deriving Repr, DecidableEq

/-- The function `get_manager_emails` (lines 62–94).  An empty id list returns `[]`
before any query.  Otherwise the primary stored-procedure path runs; on any
exception the `except` block tries `get_email_recipients(conn,
'Sys_Email_Purchase')` once, and if that also raises, returns `[]`.  Every
exception is caught, so the function is total: no exception escapes. -/
def get_manager_emails (env : ResolverEnv) (employee_ids : List Int) :
    ResolverRun :=
  if employee_ids.isEmpty then
    { result := [], primaryCalls := 0, fallbackCalls := 0 }
  else
    match primaryAttempt env employee_ids with
    | .ok emails => { result := emails, primaryCalls := 1, fallbackCalls := 0 }
    | .error _ =>
      match get_email_recipients env "Sys_Email_Purchase" with
      | .ok emails => { result := emails, primaryCalls := 1, fallbackCalls := 1 }
      | .error _ => { result := [], primaryCalls := 1, fallbackCalls := 1 }

/-! ### Report renderer (`create_email_body`) -/

/-- The urgency classification of lines 138–144:
`if days_left <= 3: "urgent"  elif days_left <= 7: "warning"  else: "info"`. -/
def days_class (days_left : Int) : String :=
  if days_left ≤ 3 then "urgent"
  else if days_left ≤ 7 then "warning"
  else "info"

/-- The fixed part of the HTML body before the table rows (lines 99–135).
The f-string interpolates the generation timestamp, passed here explicitly;
literal braces of the CSS are written as hex escapes. -/
def emailHeader (generatedAt : String) : String :=
  "<html><head><style>" ++
  "body \x7b font-family: Arial, sans-serif; margin: 20px; \x7d " ++
  ".header \x7b background-color: #f8f9fa; padding: 15px; border-left: 4px solid #007cba; \x7d " ++
  ".logo \x7b max-width: 200px; margin-bottom: 15px; \x7d " ++
  ".table \x7b width: 100%; border-collapse: collapse; margin-top: 20px; \x7d " ++
  ".table th, .table td \x7b border: 1px solid #ddd; padding: 12px; text-align: left; \x7d " ++
  ".table th \x7b background-color: #f2f2f2; \x7d " ++
  ".urgent \x7b color: #d9534f; font-weight: bold; \x7d " ++
  ".warning \x7b color: #f0ad4e; \x7d " ++
  ".info \x7b color: #5bc0de; \x7d " ++
  "</style></head><body>" ++
  "<div class=\"header\">" ++
  "<img src=\"cid:Logo.png\" alt=\"Company Logo\" class=\"logo\">" ++
  "<h2>Notifica Scadenza Periodo di Prova</h2>" ++
  "<p>Data generazione report: " ++ generatedAt ++ "</p></div>" ++
  "<p>Si informa che i seguenti dipendenti hanno il periodo di prova in scadenza:</p>" ++
  "<table class=\"table\"><thead><tr>" ++
  "<th>Dipendente</th><th>Data Assunzione</th><th>Periodo di Prova</th>" ++
  "<th>Data Fine Prova</th><th>Giorni Mancanti</th>" ++
  "</tr></thead><tbody>"

/-- One table row (lines 146–154): the urgency class computed from
`MissingDayAtEndTestDate` is attached to the days-remaining cell. -/
def emailRow (emp : EligibilityRecord) : String :=
  "<tr><td>" ++ emp.employee ++
  "</td><td>" ++ toString emp.hireDate ++
  "</td><td>" ++ emp.testPeriod ++
  "</td><td>" ++ toString emp.lastTestDate ++
  "</td><td class=\"" ++ days_class emp.missingDayAtEndTestDate ++ "\">" ++
  toString emp.missingDayAtEndTestDate ++ " giorni</td></tr>"

/-- The fixed part of the HTML body after the table rows (lines 156–175). -/
def emailFooter : String :=
  "</tbody></table>" ++
  "<p><strong>Note:</strong></p><ul>" ++
  "<li class=\"urgent\">● Rosso: scadenza entro 3 giorni</li>" ++
  "<li class=\"warning\">● Arancione: scadenza entro 7 giorni</li>" ++
  "<li class=\"info\">● Blu: scadenza oltre 7 giorni</li></ul>" ++
  "<p>Si prega di prendere le necessarie azioni per la valutazione del periodo di prova.</p>" ++
  "<hr><p style=\"color: #666; font-size: 12px;\">" ++
  "Questo è un messaggio automatico, si prega di non rispondere.</p>" ++
  "</body></html>"

/-- The function `create_email_body` (lines 97–177): header, one row per
record in order, footer. -/
def create_email_body (generatedAt : String) (employees : List EligibilityRecord) :
    String :=
  emailHeader generatedAt ++ String.join (employees.map emailRow) ++ emailFooter

/-! ### Orchestrator (`main`) -/

/-- Everything outside `main` that can influence one run: the clock, and the
outcome of each fallible collaborator call (connect, the eligibility query,
the resolver's two calls, the mail send). -/
structure World where
  today : Int
  generatedAt : String
  connectOutcome : Except Unit Unit
  queryOutcome : Except Unit Database
  resolverEnv : ResolverEnv
  sendOutcome : Except Unit Unit

/-- The selection stage as `main` sees it: the query either raises (and
`get_employees_with_upcoming_test_end` re-raises after logging, lines 57–59)
or yields the rows of the eligibility query. -/
def selectStage (w : World) : Except Unit (List EligibilityRecord) :=
  match w.queryOutcome with
  | .error e => .error e
  | .ok db => .ok (get_employees_with_upcoming_test_end db w.today)

/-- Observable effects of one run of `main`. -/
structure RunTrace where
  rendererCalls : Nat
  notifierCalls : Nat
  disconnectCalls : Nat
  outcome : Except Unit Unit
deriving Repr

/-- The function `main` (lines 180–227).  After a successful construction of
the connection object, every path runs the `finally` block, which calls
`db_connection.disconnect()` exactly once; an exception reaching the outer
`except` is logged and re-raised (`outcome = .error`). -/
def main_run (w : World) : RunTrace :=
  match w.connectOutcome with
  | .error e =>
    { rendererCalls := 0, notifierCalls := 0, disconnectCalls := 1, outcome := .error e }
  | .ok _ =>
    match selectStage w with
    | .error e =>
      { rendererCalls := 0, notifierCalls := 0, disconnectCalls := 1, outcome := .error e }
    | .ok employees =>
      if employees.isEmpty then
        { rendererCalls := 0, notifierCalls := 0, disconnectCalls := 1, outcome := .ok () }
      else
        let employee_ids := employees.map (·.employeehirehistoryid)
        let resolved := get_manager_emails w.resolverEnv employee_ids
        if resolved.result.isEmpty then
          { rendererCalls := 0, notifierCalls := 0, disconnectCalls := 1, outcome := .ok () }
        else
          let _body := create_email_body w.generatedAt employees
          match w.sendOutcome with
          | .error e =>
            { rendererCalls := 1, notifierCalls := 1, disconnectCalls := 1, outcome := .error e }
          | .ok _ =>
            { rendererCalls := 1, notifierCalls := 1, disconnectCalls := 1, outcome := .ok () }

/-! ### Concrete fixtures used to instantiate the theorems -/

/-- One employee. -/
def exEmployee : EmployeeRow := ⟨1, "Pop", "Ana", "123"⟩

/-- One hire record for `exEmployee` at employer 2: hired on day 0 with a
10-day probation, so the probation end date is day 10. -/
def exHire : HireRow := ⟨100, 1, 2, 0, 10⟩

/-- A database with one eligible hire and no evaluation history. -/
def exDb : Database := ⟨[exEmployee], [exHire], []⟩

/-- A database whose single evaluation entry is for an unrelated hire id. -/
def exDbOtherEval : Database := ⟨[exEmployee], [exHire], [⟨5, 999⟩]⟩

/-- Resolver environment: primary succeeds with the spec's example rows. -/
def envPrimaryOk : ResolverEnv :=
  ⟨fun _ => .ok [some "a@b.com", some "", some "not-an-email", some "c@d.com"],
   fun _ => .ok []⟩

/-- Resolver environment: the stored procedure and the settings read both
raise. -/
def envAllFail : ResolverEnv := ⟨fun _ => .error (), fun _ => .error ()⟩

/-- Resolver environment: primary succeeds but no returned cell passes the
validity filter; the settings read would raise if attempted. -/
def envPrimaryEmpty : ResolverEnv :=
  ⟨fun _ => .ok [some "", none], fun _ => .error ()⟩

/-- A run against an empty database: connect and query succeed, zero rows. -/
def worldEmptyDb : World := ⟨0, "", .ok (), .ok ⟨[], [], []⟩, envPrimaryOk, .ok ()⟩

/-- A run with one eligible employee (as of day 9) whose manager lookup
succeeds but yields no valid email. -/
def worldPrimaryEmpty : World := ⟨9, "", .ok (), .ok exDb, envPrimaryEmpty, .ok ()⟩

/-! ### Helper lemmas -/

/-- Membership in `emitFor` forces the WHERE clause to hold on a NULL
evaluation column and fixes the record. -/
theorem mem_emitFor_elim {evals : List EvalRow} {today : Int} {e : EmployeeRow}
    {h : HireRow} {r : EligibilityRecord} (hr : r ∈ emitFor evals today e h) :
    dateWindow today h = true ∧
    (∀ ev ∈ evals, ev.employeeHireHistoryId ≠ h.employeeHireHistoryId) ∧
    r = mkRecord today e h := by
  unfold emitFor at hr
  rcases List.mem_filterMap.mp hr with ⟨evOpt, hmem, hsome⟩
  by_cases hw : whereClause today h evOpt
  · have hrec : r = mkRecord today e h := by
      simp [hw] at hsome
      exact hsome.symm
    have hnone : evOpt = none := by
      have := hw
      unfold whereClause at this
      rcases evOpt with _ | ev
      · rfl
      · simp at this
    subst hnone
    unfold leftJoinEvals at hmem
    by_cases hms : (evals.filter fun ev =>
        ev.employeeHireHistoryId == h.employeeHireHistoryId).isEmpty
    · refine ⟨?_, ?_, hrec⟩
      · unfold whereClause at hw
        simpa using hw
      · intro ev hev hid
        have : ev ∈ evals.filter fun ev =>
            ev.employeeHireHistoryId == h.employeeHireHistoryId := by
          simp [List.mem_filter, hev, hid]
        rw [List.isEmpty_iff] at hms
        simp [hms] at this
    · simp [hms] at hmem
  · simp [hw] at hsome

/-- Membership in the selector output decomposes into a joined
(employee, hire) pair satisfying the WHERE clause with no matching
evaluation row. -/
theorem selector_mem_elim {db : Database} {today : Int} {r : EligibilityRecord}
    (hr : r ∈ get_employees_with_upcoming_test_end db today) :
    ∃ e ∈ db.employees, ∃ h ∈ db.hires,
      h.employeeId = e.employeeId ∧ h.employeerId = 2 ∧
      dateWindow today h = true ∧
      (∀ ev ∈ db.evals, ev.employeeHireHistoryId ≠ h.employeeHireHistoryId) ∧
      r = mkRecord today e h := by
  unfold get_employees_with_upcoming_test_end innerJoinHires at hr
  rw [List.mem_flatMap] at hr
  rcases hr with ⟨p, hp, hemit⟩
  rw [List.mem_flatMap] at hp
  rcases hp with ⟨e, he, hp⟩
  rw [List.mem_map] at hp
  rcases hp with ⟨h, hh, hph⟩
  rw [List.mem_filter] at hh
  rcases hh with ⟨hh, hcond⟩
  subst hph
  rcases mem_emitFor_elim hemit with ⟨hwin, hnoe, hrec⟩
  refine ⟨e, he, h, hh, ?_, ?_, hwin, hnoe, hrec⟩
  · have := hcond
    simp at this
    exact this.1
  · have := hcond
    simp at this
    exact this.2

/-! ### Claims -/

/-- C1 (counterexample): the claim reads the window backwards.  With a hire
whose probation ends on day 10: as of day 9 the end date is `now + 1 day`
— the claim says such a record is excluded, but the selector returns it;
as of day 40 we have `now - probationEndDate = 30 days` — the claim says
such a record is included, but the selector returns nothing. -/
theorem C1_counterexample :
    (probationEnd exHire = 9 + 1 ∧
      get_employees_with_upcoming_test_end exDb 9 ≠ []) ∧
    (40 - probationEnd exHire = 30 ∧
      get_employees_with_upcoming_test_end exDb 40 = []) := by
  decide

/-- C1 (amended): the selection predicate admits a hire exactly when the
signed day-distance `now - probationEndDate` lies in `[-30, 0]`, i.e. the
probation end date is today or up to 30 days in the future; consequently
every selected record's end date lies in `[today, today + 30]`. -/
theorem C1_window (today : Int) (h : HireRow) (db : Database)
    (r : EligibilityRecord) :
    (dateWindow today h = true ↔
      today ≤ probationEnd h ∧ probationEnd h ≤ today + 30) ∧
    (r ∈ get_employees_with_upcoming_test_end db today →
      today ≤ r.lastTestDate ∧ r.lastTestDate ≤ today + 30) := by
  have hwin : ∀ h' : HireRow, dateWindow today h' = true ↔
      today ≤ probationEnd h' ∧ probationEnd h' ≤ today + 30 := by
    intro h'
    unfold dateWindow
    simp only [Bool.and_eq_true, decide_eq_true_eq]
    omega
  refine ⟨hwin h, fun hr => ?_⟩
  rcases selector_mem_elim hr with ⟨e, _, h', _, _, _, hw, _, hrec⟩
  have hb := (hwin h').mp hw
  rw [hrec]
  unfold mkRecord
  exact hb

/-- C1 (witness for the amended claim): the day-9 record of the example
database has its probation end date inside `[today, today + 30]`. -/
theorem C1_window_witness :
    (9 : Int) ≤ (mkRecord 9 exEmployee exHire).lastTestDate ∧
    (mkRecord 9 exEmployee exHire).lastTestDate ≤ 9 + 30 :=
  (C1_window 9 exHire exDb (mkRecord 9 exEmployee exHire)).2 (by decide)

/-- C2: the urgency class is a total function of `days_left` alone:
"urgent" exactly when `days_left ≤ 3`, "warning" exactly when
`3 < days_left ≤ 7`, "info" exactly when `7 < days_left`; in particular
3 ↦ "urgent", 4 ↦ "warning", 7 ↦ "warning", 8 ↦ "info". -/
theorem C2_days_class (d : Int) :
    (days_class d = "urgent" ↔ d ≤ 3) ∧
    (days_class d = "warning" ↔ 3 < d ∧ d ≤ 7) ∧
    (days_class d = "info" ↔ 7 < d) ∧
    days_class 3 = "urgent" ∧ days_class 4 = "warning" ∧
    days_class 7 = "warning" ∧ days_class 8 = "info" := by
  have hwu : ("warning" : String) ≠ "urgent" := by decide
  have hiu : ("info" : String) ≠ "urgent" := by decide
  have huw : ("urgent" : String) ≠ "warning" := by decide
  have hiw : ("info" : String) ≠ "warning" := by decide
  have hui : ("urgent" : String) ≠ "info" := by decide
  have hwi : ("warning" : String) ≠ "info" := by decide
  refine ⟨⟨fun hcl => ?_, fun hle => ?_⟩, ⟨fun hcl => ?_, fun hb => ?_⟩,
    ⟨fun hcl => ?_, fun hgt => ?_⟩, by decide, by decide, by decide, by decide⟩
  · unfold days_class at hcl
    by_cases h3 : d ≤ 3
    · exact h3
    · rw [if_neg h3] at hcl
      by_cases h7 : d ≤ 7
      · rw [if_pos h7] at hcl
        exact absurd hcl hwu
      · rw [if_neg h7] at hcl
        exact absurd hcl hiu
  · unfold days_class
    rw [if_pos hle]
  · unfold days_class at hcl
    by_cases h3 : d ≤ 3
    · rw [if_pos h3] at hcl
      exact absurd hcl huw
    · rw [if_neg h3] at hcl
      by_cases h7 : d ≤ 7
      · exact ⟨by omega, h7⟩
      · rw [if_neg h7] at hcl
        exact absurd hcl hiw
  · unfold days_class
    rw [if_neg (by omega), if_pos hb.2]
  · unfold days_class at hcl
    by_cases h3 : d ≤ 3
    · rw [if_pos h3] at hcl
      exact absurd hcl hui
    · rw [if_neg h3] at hcl
      by_cases h7 : d ≤ 7
      · rw [if_pos h7] at hcl
        exact absurd hcl hwi
      · omega
  · unfold days_class
    rw [if_neg (by omega), if_neg (by omega)]

/-- C3: every item returned by the resolver, on the primary as well as on
the fallback path, is a non-empty string containing a character '@'; and on
the spec's example rows the primary path keeps exactly the two well-formed
addresses, in order. -/
theorem C3_resolver_valid (env : ResolverEnv) (ids : List Int) (s : String)
    (hs : s ∈ (get_manager_emails env ids).result) :
    s ≠ "" ∧ s.data.contains '@' = true ∧
    (get_manager_emails envPrimaryOk [1]).result = ["a@b.com", "c@d.com"] := by
  have hval : validEmailCell (some s) = true →
      s ≠ "" ∧ s.data.contains '@' = true := by
    intro hv
    unfold validEmailCell at hv
    rw [Bool.and_eq_true, Bool.not_eq_true'] at hv
    exact ⟨fun he => by rw [he] at hv; exact absurd hv.1 (by decide), hv.2⟩
  have hex : (get_manager_emails envPrimaryOk [1]).result = ["a@b.com", "c@d.com"] := by
    decide
  have hcell : validEmailCell (some s) = true := by
    unfold get_manager_emails at hs
    by_cases hids : ids.isEmpty
    · simp [hids] at hs
    · rw [if_neg hids] at hs
      rcases hpa : primaryAttempt env ids with _ | emails
      · rw [hpa] at hs
        rcases hfb : get_email_recipients env "Sys_Email_Purchase" with _ | emails
        · rw [hfb] at hs
          simp at hs
        · rw [hfb] at hs
          simp only at hs
          unfold get_email_recipients at hfb
          rcases hso : env.settingsOutcome "Sys_Email_Purchase" with _ | xs
          · rw [hso] at hfb
            cases hfb
          · rw [hso] at hfb
            simp only [Except.ok.injEq] at hfb
            subst hfb
            exact (List.mem_filter.mp hs).2
      · rw [hpa] at hs
        simp only at hs
        unfold primaryAttempt at hpa
        rcases hsp : env.spOutcome (idListString ids) with _ | rows
        · rw [hsp] at hpa
          cases hpa
        · rw [hsp] at hpa
          simp only [Except.ok.injEq] at hpa
          subst hpa
          unfold collectEmails at hs
          rcases List.mem_filterMap.mp hs with ⟨r, _, hr⟩
          by_cases hv : validEmailCell r
          · rw [if_pos hv] at hr
            rw [hr] at hv
            exact hv
          · rw [if_neg hv] at hr
            cases hr
  exact ⟨(hval hcell).1, (hval hcell).2, hex⟩

/-- C3 (witness): on the example environment, the first kept address is
non-empty, contains '@', and the full output is the two valid addresses. -/
theorem C3_resolver_valid_witness :
    ("a@b.com" : String) ≠ "" ∧ ("a@b.com" : String).data.contains '@' = true ∧
    (get_manager_emails envPrimaryOk [1]).result = ["a@b.com", "c@d.com"] :=
  C3_resolver_valid envPrimaryOk [1] "a@b.com" (by decide)

/-- C4: when the primary stored-procedure path raises, the settings fallback
(key `Sys_Email_Purchase`) is entered exactly once, and if the settings read
also raises the resolver returns `[]`; the resolver's total return type
embeds that no exception escapes it. -/
theorem C4_fallback_once (env : ResolverEnv) (ids : List Int)
    (hne : ids ≠ [])
    (hp : env.spOutcome (idListString ids) = .error ()) :
    (get_manager_emails env ids).fallbackCalls = 1 ∧
    (env.settingsOutcome "Sys_Email_Purchase" = .error () →
      (get_manager_emails env ids).result = []) := by
  have hpa : primaryAttempt env ids = .error () := by
    unfold primaryAttempt
    rw [hp]
  have hids : ¬ids.isEmpty := by
    simpa using hne
  unfold get_manager_emails
  rw [if_neg hids, hpa]
  rcases hfb : get_email_recipients env "Sys_Email_Purchase" with _ | emails
  · exact ⟨rfl, fun _ => rfl⟩
  · refine ⟨rfl, fun hso => ?_⟩
    unfold get_email_recipients at hfb
    rw [hso] at hfb
    cases hfb

/-- C4 (witness): with both collaborator calls raising, the fallback is
entered once and the result is empty. -/
theorem C4_fallback_once_witness :
    (get_manager_emails envAllFail [1]).fallbackCalls = 1 ∧
    (get_manager_emails envAllFail [1]).result = [] :=
  ⟨(C4_fallback_once envAllFail [1] (by decide) rfl).1,
   (C4_fallback_once envAllFail [1] (by decide) rfl).2 rfl⟩

/-- C5: the selector keeps only rows with no matching evaluation-history
entry — every record it outputs has a `historyId` for which no evaluation
row exists, so a hire with a matching evaluation entry is excluded even when
it satisfies the date window. -/
theorem C5_eval_exclusion (db : Database) (today : Int) (r : EligibilityRecord)
    (hr : r ∈ get_employees_with_upcoming_test_end db today) :
    ∀ ev ∈ db.evals, ev.employeeHireHistoryId ≠ r.employeehirehistoryid := by
  rcases selector_mem_elim hr with ⟨e, _, h, _, _, _, _, hnoe, hrec⟩
  intro ev hev
  rw [hrec]
  exact hnoe ev hev

/-- C5 (witness): in the database whose only evaluation entry is for hire
999, the selected record (hire 100) has no matching evaluation entry. -/
theorem C5_eval_exclusion_witness :
    (⟨5, 999⟩ : EvalRow).employeeHireHistoryId ≠
      (mkRecord 9 exEmployee exHire).employeehirehistoryid :=
  C5_eval_exclusion exDbOtherEval 9 (mkRecord 9 exEmployee exHire)
    (by decide) ⟨5, 999⟩ (by decide)

/-- C6: called with an empty id list, the resolver returns `[]` having
entered neither the stored-procedure path nor the fallback path. -/
theorem C6_empty_ids (env : ResolverEnv) :
    get_manager_emails env [] =
      { result := [], primaryCalls := 0, fallbackCalls := 0 } :=
  rfl

/-- C7: every selected record's `MissingDayAtEndTestDate` is non-negative,
because the SELECT list takes `abs(datediff(...))`. -/
theorem C7_days_nonneg (db : Database) (today : Int) (r : EligibilityRecord)
    (hr : r ∈ get_employees_with_upcoming_test_end db today) :
    0 ≤ r.missingDayAtEndTestDate := by
  rcases selector_mem_elim hr with ⟨e, _, h, _, _, _, _, _, hrec⟩
  rw [hrec]
  exact abs_nonneg _

/-- C7 (witness): the record selected on day 9 from the example database has
a non-negative days-remaining value. -/
theorem C7_days_nonneg_witness :
    0 ≤ (mkRecord 9 exEmployee exHire).missingDayAtEndTestDate :=
  C7_days_nonneg exDb 9 (mkRecord 9 exEmployee exHire) (by decide)

/-- C8: empty results are clean terminal states.  With connect and query
succeeding: zero eligible records makes the run stop with the renderer and
notifier never invoked and no error; zero resolved recipients makes the run
stop with the notifier never invoked and no error. -/
theorem C8_empty_clean (w : World) (db : Database)
    (hc : w.connectOutcome = .ok ()) (hq : w.queryOutcome = .ok db) :
    (get_employees_with_upcoming_test_end db w.today = [] →
      main_run w = { rendererCalls := 0, notifierCalls := 0,
                     disconnectCalls := 1, outcome := .ok () }) ∧
    ((get_manager_emails w.resolverEnv
        ((get_employees_with_upcoming_test_end db w.today).map
          (·.employeehirehistoryid))).result = [] →
      (main_run w).rendererCalls = 0 ∧ (main_run w).notifierCalls = 0 ∧
        (main_run w).outcome = .ok ()) := by
  obtain ⟨today, gen, co, qo, renv, so⟩ := w
  simp only at hc hq ⊢
  subst hc
  subst hq
  constructor
  · intro hemp
    simp [main_run, selectStage, hemp]
  · intro hres
    by_cases hemp : get_employees_with_upcoming_test_end db today = []
    · simp [main_run, selectStage, hemp]
    · simp [main_run, selectStage, hemp, hres]

/-- C8 (witness): on an empty database the run ends cleanly with neither
renderer nor notifier invoked and the connection released. -/
theorem C8_empty_clean_witness :
    main_run worldEmptyDb = { rendererCalls := 0, notifierCalls := 0,
                              disconnectCalls := 1, outcome := .ok () } :=
  (C8_empty_clean worldEmptyDb ⟨[], [], []⟩ rfl rfl).1 rfl

/-- C9: `disconnect` runs exactly once on every exit path of `main` —
normal completion, the two early clean stops, and the raising paths from
connect, selection and delivery alike. -/
theorem C9_disconnect_always (w : World) : (main_run w).disconnectCalls = 1 := by
  unfold main_run selectStage
  split
  · rfl
  · split
    · rfl
    · split
      · rfl
      · split <;> (dsimp only; split <;> rfl)

/-- C10: when the stored procedure succeeds but no returned cell passes the
validity filter, the fallback is never entered, the resolver returns `[]`,
and the run stops cleanly without invoking the notifier. -/
theorem C10_primary_empty (w : World) (db : Database)
    (rows : List (Option String))
    (hc : w.connectOutcome = .ok ()) (hq : w.queryOutcome = .ok db)
    (hne : get_employees_with_upcoming_test_end db w.today ≠ [])
    (hp : w.resolverEnv.spOutcome (idListString
      ((get_employees_with_upcoming_test_end db w.today).map
        (·.employeehirehistoryid))) = .ok rows)
    (hempty : collectEmails rows = []) :
    get_manager_emails w.resolverEnv
      ((get_employees_with_upcoming_test_end db w.today).map
        (·.employeehirehistoryid)) =
      { result := [], primaryCalls := 1, fallbackCalls := 0 } ∧
    (main_run w).notifierCalls = 0 ∧ (main_run w).outcome = .ok () := by
  obtain ⟨today, gen, co, qo, renv, so⟩ := w
  simp only at hc hq hne hp ⊢
  subst hc
  subst hq
  have hids : ¬((get_employees_with_upcoming_test_end db today).map
      (·.employeehirehistoryid)).isEmpty := by
    simp [List.isEmpty_iff]
    exact hne
  have hpa : primaryAttempt renv
      ((get_employees_with_upcoming_test_end db today).map
        (·.employeehirehistoryid)) = .ok [] := by
    unfold primaryAttempt
    rw [hp]
    dsimp only
    rw [hempty]
  have hrun : get_manager_emails renv
      ((get_employees_with_upcoming_test_end db today).map
        (·.employeehirehistoryid)) =
      { result := [], primaryCalls := 1, fallbackCalls := 0 } := by
    unfold get_manager_emails
    rw [if_neg hids, hpa]
  refine ⟨hrun, ?_⟩
  simp [main_run, selectStage, hne, hrun]

/-- C10 (witness): one eligible employee, a stored procedure returning only
a NULL cell and an empty string — the fallback stays untouched and the run
ends cleanly with no email sent. -/
theorem C10_primary_empty_witness :
    get_manager_emails worldPrimaryEmpty.resolverEnv
      ((get_employees_with_upcoming_test_end exDb 9).map
        (·.employeehirehistoryid)) =
      { result := [], primaryCalls := 1, fallbackCalls := 0 } ∧
    (main_run worldPrimaryEmpty).notifierCalls = 0 ∧
    (main_run worldPrimaryEmpty).outcome = .ok () :=
  C10_primary_empty worldPrimaryEmpty exDb [some "", none] rfl rfl
    (by decide) rfl rfl

end Main
